import Mathlib

/-!
Verification development for the KNOT gateway HTTP transport layer
(`proto-http`): a shallow embedding of the JSON envelope codec, the
HTTP status mapping, the request builder (`fetch_url`), the device
protocol operations and the watch/poll loop, together with theorems
about their behaviour.

Machine integers (`long`, `int`) are modelled as `Int`; C strings as
Lean `String` (or `List Char` where the byte-level buffer matters);
NULL pointers as `Option`.  The libcurl exchange is modelled as an
oracle `perform : Request → CurlResult` supplied to each operation,
and the external json-c parser as an oracle `parse : String → Option Json`.
-/

namespace Meshblu

/- errno values used by the source (Linux/asm-generic). -/

def EPERM : Int := 1

def ENOENT : Int := 2

def EIO : Int := 5

def ENOMEM : Int := 12

def EINVAL : Int := 22

/- Constants from the source. -/

def URL_SIZE : Nat := 128

def REQUEST_SIZE : Nat := 10

def EXPECTED_RESPONSE_ARRAY_LENGTH : Nat := 1

def MESHBLU_UUID_SIZE : Nat := 36

def MESHBLU_TOKEN_SIZE : Nat := 40

def MESHBLU_AUTH_UUID : String := "meshblu_auth_uuid: "

/-- sizeof of the C literal, terminator included. -/
def MESHBLU_AUTH_UUID_SIZE : Nat := MESHBLU_AUTH_UUID.length + 1

def MESHBLU_AUTH_TOKEN : String := "meshblu_auth_token: "

/-- sizeof of the C literal, terminator included. -/
def MESHBLU_AUTH_TOKEN_SIZE : Nat := MESHBLU_AUTH_TOKEN.length + 1

/-! ## JSON values (model of json-c `json_object`) -/

/-- A json-c value.  Numbers are modelled as integers, which covers every
literal the service traffic and the spec examples use. -/
inductive Json where
  | jnull : Json
  | jbool : Bool → Json
  | jint : Int → Json
  | jstr : String → Json
  | jarr : List Json → Json
  | jobj : List (String × Json) → Json

/-- String-content escaping used when re-serializing a value. -/
def escapeChar (c : Char) : String :=
  if c = '"' then "\\\"" else if c = '\\' then "\\\\" else String.singleton c

def escapeString (s : String) : String :=
  String.join (s.data.map escapeChar)

mutual

/-- Model of json-c `json_object_to_json_string`: the canonical
serialization of a value, in compact form. -/
def json_to_string : Json → String
  | Json.jnull => "null"
  | Json.jbool b => if b then "true" else "false"
  | Json.jint n => toString n
  | Json.jstr s => "\"" ++ escapeString s ++ "\""
  | Json.jarr xs => "[" ++ jarr_to_string xs ++ "]"
  | Json.jobj fs => "\x7b" ++ jobj_to_string fs ++ "\x7d"

def jarr_to_string : List Json → String
  | [] => ""
  | [x] => json_to_string x
  | x :: y :: xs => json_to_string x ++ "," ++ jarr_to_string (y :: xs)

def jobj_to_string : List (String × Json) → String
  | [] => ""
  | [(k, v)] => "\"" ++ escapeString k ++ "\":" ++ json_to_string v
  | (k, v) :: p :: fs =>
      "\"" ++ escapeString k ++ "\":" ++ json_to_string v ++ "," ++
        jobj_to_string (p :: fs)

end

/-- Field lookup in an object's field list (first match). -/
def lookupField : List (String × Json) → String → Option Json
  | [], _ => none
  | (k, v) :: rest, key => if k = key then some v else lookupField rest key

/-- Model of json-c `json_object_object_get_ex`: succeeds only on an
object value holding the key. -/
def json_object_object_get_ex : Json → String → Option Json
  | Json.jobj fields, key => lookupField fields key
  | _, _ => none

/-! ## The envelope codec: `check_json` -/

/-- `check_json` of the source, with json-c's `json_tokener_parse`
supplied as an oracle `parse` (it is external library code): parse the
body, require a top-level `devices` field holding an array of exactly
`EXPECTED_RESPONSE_ARRAY_LENGTH = 1` element, and return the canonical
serialization of that sole element.  `none` models the `-1` failure
return. -/
def check_json (parse : String → Option Json) (json_str : String) : Option String :=
  match parse json_str with
  | none => none
  | some jobj =>
    match json_object_object_get_ex jobj "devices" with
    | none => none
    | some (Json.jarr elems) =>
      match elems with
      | [e] => some (json_to_string e)
      | _ => none
    | some _ => none

/-- The one-device envelope of the spec example, `{"devices":[{"a":1}]}`. -/
def exampleDevice : Json := Json.jobj [("a", Json.jint 1)]

def exampleEnvelope : Json := Json.jobj [("devices", Json.jarr [exampleDevice])]

def exampleBody : String := "\x7b\"devices\":[\x7b\"a\":1\x7d]\x7d"

/-- A concrete parse oracle recognising exactly the example body. -/
def exampleParse : String → Option Json := fun s =>
  if s = exampleBody then some exampleEnvelope else none

/-- Claim C1: envelope extraction fails on input the JSON parser rejects,
fails when the top-level `devices` field is absent or is not an array of
exactly one element (cardinality 0 or ≥ 2 rejected), and on the
single-element case succeeds, returning the canonical serialization of
that sole element. -/
theorem check_json_spec (parse : String → Option Json) (s : String) :
    (parse s = none → check_json parse s = none) ∧
    (∀ j, parse s = some j → json_object_object_get_ex j "devices" = none →
      check_json parse s = none) ∧
    (∀ j xs, parse s = some j →
      json_object_object_get_ex j "devices" = some (Json.jarr xs) →
      xs.length ≠ EXPECTED_RESPONSE_ARRAY_LENGTH → check_json parse s = none) ∧
    (∀ j v, parse s = some j → json_object_object_get_ex j "devices" = some v →
      (∀ xs, v ≠ Json.jarr xs) → check_json parse s = none) ∧
    (∀ j e, parse s = some j →
      json_object_object_get_ex j "devices" = some (Json.jarr [e]) →
      check_json parse s = some (json_to_string e)) := by
  refine ⟨?_, ?_, ?_, ?_, ?_⟩
  · intro hp
    simp [check_json, hp]
  · intro j hp hd
    simp [check_json, hp, hd]
  · intro j xs hp hd hlen
    match xs, hlen with
    | [], _ => simp [check_json, hp, hd]
    | [e], h => exact absurd rfl h
    | x :: y :: rest, _ => simp [check_json, hp, hd]
  · intro j v hp hd hne
    match v, hne, hd with
    | Json.jnull, _, hd => simp [check_json, hp, hd]
    | Json.jbool b, _, hd => simp [check_json, hp, hd]
    | Json.jint n, _, hd => simp [check_json, hp, hd]
    | Json.jstr t, _, hd => simp [check_json, hp, hd]
    | Json.jobj fs, _, hd => simp [check_json, hp, hd]
    | Json.jarr xs, h, _ => exact absurd rfl (h xs)
  · intro j e hp hd
    simp [check_json, hp, hd]

/-- Claim C1 witness: on the example body `{"devices":[{"a":1}]}` the
codec succeeds and returns the string `{"a":1}`. -/
theorem check_json_spec_witness :
    check_json exampleParse exampleBody = some "\x7b\"a\":1\x7d" := by
  have h := (check_json_spec exampleParse exampleBody).2.2.2.2
    exampleEnvelope exampleDevice (by rfl) (by rfl)
  exact h.trans rfl

/-! ## HTTP status mapping -/

/-- `http2errno` of the source: map an HTTP status to a result code. -/
def http2errno (ehttp : Int) : Int :=
  if ehttp = 200 ∨ ehttp = 201 then 0
  else if ehttp = 401 ∨ ehttp = 403 then - EPERM
  else if ehttp = 404 then - ENOENT
  else - EIO

/-- Claim C2: the status mapping is a total, deterministic function
(being a Lean function it is total and deterministic by construction):
200 and 201 map to success, 401 and 403 to permission-denied, 404 to
not-found, and every other status to a generic I/O error. -/
theorem http2errno_spec (s : Int) :
    http2errno 200 = 0 ∧ http2errno 201 = 0 ∧
    http2errno 401 = - EPERM ∧ http2errno 403 = - EPERM ∧
    http2errno 404 = - ENOENT ∧
    (s ≠ 200 → s ≠ 201 → s ≠ 401 → s ≠ 403 → s ≠ 404 → http2errno s = - EIO) := by
  refine ⟨rfl, rfl, rfl, rfl, rfl, ?_⟩
  intro h1 h2 h3 h4 h5
  simp [http2errno, h1, h2, h3, h4, h5]

/-- Claim C2 witness: status 500 maps to the generic I/O error. -/
theorem http2errno_spec_witness : http2errno 500 = - EIO :=
  (http2errno_spec 500).2.2.2.2.2 (by decide) (by decide) (by decide)
    (by decide) (by decide)

/-! ## Response body buffers -/

/-- `json_raw_t`: the raw response buffer.  `data` models the heap
block behind the `char *` pointer, byte for byte (`none` is the NULL
pointer); `size` is the recorded length field. -/
structure json_raw_t where
  data : Option (List Char)
  size : Nat
deriving DecidableEq

/-- The NUL byte. -/
def nulChar : Char := Char.ofNat 0

/-- `write_cb` of the source, for one incoming chunk: grow the buffer,
append the chunk after the first `size` bytes, bump `size`, and force a
NUL terminator.  (`realloc` is modelled as always succeeding.) -/
def write_cb (b : json_raw_t) (chunk : String) : json_raw_t :=
  { data := some ((b.data.getD []).take b.size ++ chunk.data ++ [nulChar]),
    size := b.size + chunk.length }

/-- The C string a `char *` into the buffer denotes: the bytes up to
the first NUL. -/
def bufString (b : json_raw_t) : String :=
  String.mk ((b.data.getD []).takeWhile (fun c => c ≠ nulChar))

/-! ## The request builder and transport client: `fetch_url` -/

/-- The request handed to libcurl: custom method, target URL, header
list and optional POST body. -/
structure Request where
  method : String
  url : Option String
  headers : List String
  body : Option String
deriving DecidableEq

/-- Outcome of `curl_easy_perform`: a transport-level failure, or a
response with an HTTP status and the body delivered as chunks to the
write callback. -/
inductive CurlResult where
  | curlError : CurlResult
  | response : Int → List String → CurlResult

/-- `snprintf` into a buffer of `cap` bytes: at most `cap - 1`
characters are kept, the rest is truncated. -/
def snprintf_trunc (cap : Nat) (s : String) : String :=
  String.mk (s.data.take (cap - 1))

/-- The `strncpy` + `toupper` loop over the method name (buffer of
`REQUEST_SIZE + 1` bytes). -/
def upcase_of (request : String) : String :=
  String.mk ((request.data.take (REQUEST_SIZE + 1)).map Char.toUpper)

/-- The buffer right after `fetch->data` is freed and zeroed. -/
def json_raw_empty : json_raw_t := { data := none, size := 0 }

/-- The two authentication headers, built by `snprintf` into their
fixed-size stack buffers when both credentials are non-NULL. -/
def auth_headers : Option String → Option String → List String
  | some u, some t =>
      [snprintf_trunc (MESHBLU_AUTH_UUID_SIZE + MESHBLU_UUID_SIZE)
         (MESHBLU_AUTH_UUID ++ u),
       snprintf_trunc (MESHBLU_AUTH_TOKEN_SIZE + MESHBLU_TOKEN_SIZE)
         (MESHBLU_AUTH_TOKEN ++ t)]
  | _, _ => []

/-- The content-type headers, added only when a body is present. -/
def content_headers : Option String → List String
  | some _ => ["Accept: application/json", "Content-Type: application/json",
               "charsets: utf-8"]
  | none => []

/-- The request `fetch_url` assembles for libcurl. -/
def built_request (action json uuid token : Option String) (req : String) :
    Request :=
  { method := upcase_of req, url := action,
    headers := auth_headers uuid token ++ content_headers json, body := json }

/-- `fetch_url` of the source.  The libcurl exchange is the oracle
`perform`.  Returns the result code, the response buffer (`none` when
the NULL `fetch` argument was rejected), and the request actually
handed to `curl_easy_perform` (`none` when no exchange took place).
The guard rejects only a NULL method string or a NULL buffer pointer;
it then frees and clears the buffer, uppercases the method, builds the
auth headers (with `snprintf` truncation at the fixed buffer sizes)
and content headers, and maps the outcome through `http2errno`. -/
def fetch_url (perform : Request → CurlResult) (sockfd : Int)
    (action : Option String) (json : Option String)
    (uuid token : Option String) (fetch : Option json_raw_t)
    (request : Option String) : Int × Option json_raw_t × Option Request :=
  match request, fetch with
  | none, _ => (- EINVAL, fetch, none)
  | some _, none => (- EINVAL, none, none)
  | some req, some _ =>
    match perform (built_request action json uuid token req) with
    | CurlResult.curlError =>
        (- EIO, some json_raw_empty, some (built_request action json uuid token req))
    | CurlResult.response status chunks =>
        (http2errno status, some (chunks.foldl write_cb json_raw_empty),
         some (built_request action json uuid token req))

/-! ## Device protocol operations -/

/-- The URI `snprintf("%s/%s", base, uuid)` into a stack buffer of
`strlen(base) + 2 + MESHBLU_UUID_SIZE` bytes. -/
def node_uri (base uuid : String) : String :=
  snprintf_trunc (base.length + 2 + MESHBLU_UUID_SIZE) (base ++ "/" ++ uuid)

/-- `http_mknode`: create a device, `POST {device_uri}`, no auth. -/
def http_mknode (perform : Request → CurlResult) (device_uri : String)
    (sock : Int) (jreq : String) (json : json_raw_t) :
    Int × Option json_raw_t × Option Request :=
  fetch_url perform sock (some device_uri) (some jreq) none none
    (some json) (some "POST")

/-- `http_signin`: `GET {device_uri}/{uuid}` with auth, then the body
must pass `check_json`, else `-EINVAL`.  On codec success the buffer is
replaced by the canonical device payload with `size` set to
`strlen + 1` as in the source. -/
def http_signin (perform : Request → CurlResult)
    (parse : String → Option Json) (device_uri : String) (sock : Int)
    (uuid token : String) (json : json_raw_t) :
    Int × Option json_raw_t × Option Request :=
  let r := fetch_url perform sock (some (node_uri device_uri uuid)) none
    (some uuid) (some token) (some json) (some "GET")
  if r.1 < 0 then r
  else
    match check_json parse (bufString (r.2.1.getD json_raw_empty)) with
    | none => (- EINVAL, r.2.1, r.2.2)
    | some out =>
        (r.1, some { data := some (out.data ++ [nulChar]), size := out.length + 1 },
         r.2.2)

/-- `http_rmnode`: `DELETE {device_uri}/{uuid}` with auth, raw body. -/
def http_rmnode (perform : Request → CurlResult) (device_uri : String)
    (sock : Int) (uuid token : String) (jbuf : json_raw_t) :
    Int × Option json_raw_t × Option Request :=
  fetch_url perform sock (some (node_uri device_uri uuid)) none
    (some uuid) (some token) (some jbuf) (some "DELETE")

/-- `http_schema`: `PUT {device_uri}/{uuid}` with auth and body. -/
def http_schema (perform : Request → CurlResult) (device_uri : String)
    (sock : Int) (uuid token : String) (jreq : String) (json : json_raw_t) :
    Int × Option json_raw_t × Option Request :=
  fetch_url perform sock (some (node_uri device_uri uuid)) (some jreq)
    (some uuid) (some token) (some json) (some "PUT")

/-- `http_setdata`: `PUT {device_uri}/{uuid}` with auth and body. -/
def http_setdata (perform : Request → CurlResult) (device_uri : String)
    (sock : Int) (uuid token : String) (jreq : String) (json : json_raw_t) :
    Int × Option json_raw_t × Option Request :=
  fetch_url perform sock (some (node_uri device_uri uuid)) (some jreq)
    (some uuid) (some token) (some json) (some "PUT")

/-- `http_data`: `POST {data_uri}/{uuid}` with auth and body. -/
def http_data (perform : Request → CurlResult) (data_uri : String)
    (sock : Int) (uuid token : String) (jreq : String) (json : json_raw_t) :
    Int × Option json_raw_t × Option Request :=
  fetch_url perform sock (some (node_uri data_uri uuid)) (some jreq)
    (some uuid) (some token) (some json) (some "POST")

/-- `http_fetch`: identical shape to `http_signin` — `GET` with auth,
then the body must pass `check_json`, else `-EINVAL`. -/
def http_fetch (perform : Request → CurlResult)
    (parse : String → Option Json) (device_uri : String) (sock : Int)
    (uuid token : String) (json : json_raw_t) :
    Int × Option json_raw_t × Option Request :=
  let r := fetch_url perform sock (some (node_uri device_uri uuid)) none
    (some uuid) (some token) (some json) (some "GET")
  if r.1 < 0 then r
  else
    match check_json parse (bufString (r.2.1.getD json_raw_empty)) with
    | none => (- EINVAL, r.2.1, r.2.2)
    | some out =>
        (r.1, some { data := some (out.data ++ [nulChar]), size := out.length + 1 },
         r.2.2)

/-! ## Helper lemmas about the transport -/

theorem http2errno_ne_einval (s : Int) : http2errno s ≠ - EINVAL := by
  unfold http2errno
  split
  · decide
  · split
    · decide
    · split
      · decide
      · decide

theorem http2errno_nonpos (s : Int) : http2errno s ≤ 0 := by
  unfold http2errno
  split
  · decide
  · split
    · decide
    · split
      · decide
      · decide

/-- With both the method and the buffer present, `fetch_url` always
hands `built_request` to the transport. -/
theorem fetch_url_performed (perform : Request → CurlResult) (sockfd : Int)
    (action json uuid token : Option String) (b : json_raw_t) (req : String) :
    (fetch_url perform sockfd action json uuid token (some b) (some req)).2.2 =
      some (built_request action json uuid token req) := by
  simp only [fetch_url]
  cases perform (built_request action json uuid token req) <;> rfl

theorem fetch_url_code_ne_einval (perform : Request → CurlResult) (sockfd : Int)
    (action json uuid token : Option String) (b : json_raw_t) (req : String) :
    (fetch_url perform sockfd action json uuid token (some b) (some req)).1 ≠
      - EINVAL := by
  simp only [fetch_url]
  cases perform (built_request action json uuid token req) with
  | curlError => exact (by decide : (- EIO : Int) ≠ - EINVAL)
  | response status chunks => exact http2errno_ne_einval status

/-- Claim C5 counterexample: with the method present and the buffer
present but the target URL NULL, `fetch_url` does not return
`-EINVAL`; the exchange still takes place (libcurl then fails with a
generic I/O error). -/
theorem fetch_url_null_url_counterexample :
    (fetch_url (fun _ => CurlResult.curlError) 0 none none none none
        (some json_raw_empty) (some "GET")).1 ≠ - EINVAL ∧
    (fetch_url (fun _ => CurlResult.curlError) 0 none none none none
        (some json_raw_empty) (some "GET")).2.2 ≠ none := by
  constructor <;> decide

/-- Claim C5 (amended): `fetch_url` returns `-EINVAL` exactly when the
method string is NULL or the response-payload handle is NULL, and then
performs no exchange; a NULL target URL is not part of the guard — the
request still goes to the transport stage and the result is never
`-EINVAL`. -/
theorem fetch_url_guard (perform : Request → CurlResult) (sockfd : Int)
    (action json uuid token : Option String) (fetch : Option json_raw_t)
    (request : Option String) :
    (request = none →
      fetch_url perform sockfd action json uuid token fetch request =
        (- EINVAL, fetch, none)) ∧
    (fetch = none →
      (fetch_url perform sockfd action json uuid token fetch request).1 = - EINVAL ∧
      (fetch_url perform sockfd action json uuid token fetch request).2.2 = none) ∧
    (∀ b req, fetch = some b → request = some req →
      (fetch_url perform sockfd action json uuid token fetch request).2.2 =
        some (built_request action json uuid token req) ∧
      (fetch_url perform sockfd action json uuid token fetch request).1 ≠
        - EINVAL) := by
  refine ⟨?_, ?_, ?_⟩
  · rintro rfl
    cases fetch <;> rfl
  · rintro rfl
    cases request <;> exact ⟨rfl, rfl⟩
  · rintro b req rfl rfl
    exact ⟨fetch_url_performed perform sockfd action json uuid token b req,
           fetch_url_code_ne_einval perform sockfd action json uuid token b req⟩

/-- Claim C5 amended witness: a NULL method is rejected with `-EINVAL`
and nothing reaches the transport. -/
theorem fetch_url_guard_witness :
    fetch_url (fun _ => CurlResult.curlError) 0 none none none none
        (some json_raw_empty) none = (- EINVAL, some json_raw_empty, none) :=
  (fetch_url_guard (fun _ => CurlResult.curlError) 0 none none none none
    (some json_raw_empty) none).1 rfl

/-- Claim C4 counterexample: a device id of length 1 and a token of
length 1 are not rejected: the request is built, handed to the
transport, and a 200 response yields success, not `-EINVAL`. -/
theorem fetch_url_accepts_short_credential :
    (fetch_url (fun _ => CurlResult.response 200 []) 0
        (some "h/devices/x") none (some "x") (some "t")
        (some json_raw_empty) (some "GET")).1 = 0 ∧
    (fetch_url (fun _ => CurlResult.response 200 []) 0
        (some "h/devices/x") none (some "x") (some "t")
        (some json_raw_empty) (some "GET")).2.2 ≠ none := by
  constructor <;> decide

/-- Claim C4 (amended): no credential-length validation exists anywhere
in the operation path: for every uuid and token, of any length, the
request is built and handed to the transport with the two auth headers
holding the credentials truncated at the fixed header-buffer capacity
(`snprintf`), and the result is never the invalid-argument error. -/
theorem fetch_url_no_length_check (perform : Request → CurlResult)
    (sockfd : Int) (action json : Option String) (uuid token : String)
    (b : json_raw_t) (req : String) :
    (fetch_url perform sockfd action json (some uuid) (some token)
        (some b) (some req)).2.2 =
      some { method := upcase_of req, url := action,
             headers :=
               [snprintf_trunc (MESHBLU_AUTH_UUID_SIZE + MESHBLU_UUID_SIZE)
                  (MESHBLU_AUTH_UUID ++ uuid),
                snprintf_trunc (MESHBLU_AUTH_TOKEN_SIZE + MESHBLU_TOKEN_SIZE)
                  (MESHBLU_AUTH_TOKEN ++ token)] ++ content_headers json,
             body := json } ∧
    (fetch_url perform sockfd action json (some uuid) (some token)
        (some b) (some req)).1 ≠ - EINVAL :=
  ⟨fetch_url_performed perform sockfd action json (some uuid) (some token) b req,
   fetch_url_code_ne_einval perform sockfd action json (some uuid) (some token)
     b req⟩

/-! ## Exact-length credentials and the request shape -/

theorem snprintf_trunc_of_le (cap : Nat) (s : String) (h : s.length ≤ cap - 1) :
    snprintf_trunc cap s = s := by
  unfold snprintf_trunc
  rw [List.take_of_length_le h]

theorem string_length_append (s t : String) : (s ++ t).length = s.length + t.length :=
  List.length_append s.data t.data

/-- At the exact credential lengths the header buffers fit without
truncation. -/
theorem auth_headers_exact (u t : String) (hu : u.length = MESHBLU_UUID_SIZE)
    (ht : t.length = MESHBLU_TOKEN_SIZE) :
    auth_headers (some u) (some t) =
      [MESHBLU_AUTH_UUID ++ u, MESHBLU_AUTH_TOKEN ++ t] := by
  simp only [auth_headers]
  rw [snprintf_trunc_of_le _ _ (by rw [string_length_append, hu]; decide),
      snprintf_trunc_of_le _ _ (by rw [string_length_append, ht]; decide)]

/-- At the exact uuid length the URI stack buffer fits without
truncation. -/
theorem node_uri_exact (base u : String) (hu : u.length = MESHBLU_UUID_SIZE) :
    node_uri base u = base ++ "/" ++ u := by
  unfold node_uri
  apply snprintf_trunc_of_le
  rw [string_length_append, string_length_append, hu]
  have h1 : ("/" : String).length = 1 := rfl
  rw [h1]
  omega

theorem http_signin_performed (perform : Request → CurlResult)
    (parse : String → Option Json) (device_uri : String) (sock : Int)
    (uuid token : String) (buf : json_raw_t) :
    (http_signin perform parse device_uri sock uuid token buf).2.2 =
      some (built_request (some (node_uri device_uri uuid)) none
        (some uuid) (some token) "GET") := by
  have hp := fetch_url_performed perform sock (some (node_uri device_uri uuid))
    none (some uuid) (some token) buf "GET"
  simp only [http_signin]
  split
  · exact hp
  · split <;> exact hp

theorem http_fetch_performed (perform : Request → CurlResult)
    (parse : String → Option Json) (device_uri : String) (sock : Int)
    (uuid token : String) (buf : json_raw_t) :
    (http_fetch perform parse device_uri sock uuid token buf).2.2 =
      some (built_request (some (node_uri device_uri uuid)) none
        (some uuid) (some token) "GET") := by
  have hp := fetch_url_performed perform sock (some (node_uri device_uri uuid))
    none (some uuid) (some token) buf "GET"
  simp only [http_fetch]
  split
  · exact hp
  · split <;> exact hp

/-- Claim C9: for every uuid of exactly 36 characters and token of
exactly 40 characters, sign-in and fetch-data issue a GET request to
`{device_uri}/{uuid}` carrying the two authentication headers
`meshblu_auth_uuid: <uuid>` and `meshblu_auth_token: <token>`. -/
theorem signin_fetch_request_shape (perform : Request → CurlResult)
    (parse : String → Option Json) (device_uri : String) (sock : Int)
    (uuid token : String) (buf buf2 : json_raw_t)
    (hu : uuid.length = MESHBLU_UUID_SIZE)
    (ht : token.length = MESHBLU_TOKEN_SIZE) :
    (http_signin perform parse device_uri sock uuid token buf).2.2 =
      some { method := "GET", url := some (device_uri ++ "/" ++ uuid),
             headers := [MESHBLU_AUTH_UUID ++ uuid, MESHBLU_AUTH_TOKEN ++ token],
             body := none } ∧
    (http_fetch perform parse device_uri sock uuid token buf2).2.2 =
      some { method := "GET", url := some (device_uri ++ "/" ++ uuid),
             headers := [MESHBLU_AUTH_UUID ++ uuid, MESHBLU_AUTH_TOKEN ++ token],
             body := none } := by
  have hb : built_request (some (node_uri device_uri uuid)) none
      (some uuid) (some token) "GET" =
      { method := "GET", url := some (device_uri ++ "/" ++ uuid),
        headers := [MESHBLU_AUTH_UUID ++ uuid, MESHBLU_AUTH_TOKEN ++ token],
        body := none } := by
    unfold built_request
    rw [node_uri_exact device_uri uuid hu, auth_headers_exact uuid token hu ht]
    rfl
  constructor
  · rw [http_signin_performed perform parse device_uri sock uuid token buf, hb]
  · rw [http_fetch_performed perform parse device_uri sock uuid token buf2, hb]

def uuid36 : String := "0123456789abcdef0123456789abcdef0123"

def token40 : String := "0123456789012345678901234567890123456789"

/-- Claim C9 witness: a concrete 36-character uuid and 40-character
token produce the expected GET request. -/
theorem signin_fetch_request_shape_witness :
    (http_signin (fun _ => CurlResult.curlError) (fun _ => none)
        "h/devices" 0 uuid36 token40 json_raw_empty).2.2 =
      some { method := "GET", url := some ("h/devices" ++ "/" ++ uuid36),
             headers := [MESHBLU_AUTH_UUID ++ uuid36,
                         MESHBLU_AUTH_TOKEN ++ token40],
             body := none } :=
  (signin_fetch_request_shape (fun _ => CurlResult.curlError) (fun _ => none)
    "h/devices" 0 uuid36 token40 json_raw_empty json_raw_empty
    (by decide) (by decide)).1

/-! ## Where the codec is applied -/

/-- Claim C3: on a success-status response, sign-in and fetch-data
return the validation error `-EINVAL` whenever the codec rejects the
body, and success when it accepts it; on a transport error (mapped
non-success status, or a libcurl failure) the error is returned
unchanged and the codec is not consulted (the outcome is the same for
every parse oracle); the write operations never apply the codec and
return the mapped transport result directly, whatever the body. -/
theorem proto_ops_codec_use (parse parse2 : String → Option Json)
    (device_uri : String) (sock : Int) (uuid token jreq : String)
    (buf : json_raw_t) (status : Int) (chunks : List String) :
    (http2errno status = 0 →
      (check_json parse (bufString (chunks.foldl write_cb json_raw_empty)) = none →
        (http_signin (fun _ => CurlResult.response status chunks) parse
            device_uri sock uuid token buf).1 = - EINVAL ∧
        (http_fetch (fun _ => CurlResult.response status chunks) parse
            device_uri sock uuid token buf).1 = - EINVAL) ∧
      (∀ out,
        check_json parse (bufString (chunks.foldl write_cb json_raw_empty)) = some out →
        (http_signin (fun _ => CurlResult.response status chunks) parse
            device_uri sock uuid token buf).1 = 0 ∧
        (http_fetch (fun _ => CurlResult.response status chunks) parse
            device_uri sock uuid token buf).1 = 0)) ∧
    (http2errno status < 0 →
      (http_signin (fun _ => CurlResult.response status chunks) parse
          device_uri sock uuid token buf).1 = http2errno status ∧
      (http_fetch (fun _ => CurlResult.response status chunks) parse
          device_uri sock uuid token buf).1 = http2errno status ∧
      http_signin (fun _ => CurlResult.response status chunks) parse
          device_uri sock uuid token buf =
        http_signin (fun _ => CurlResult.response status chunks) parse2
          device_uri sock uuid token buf) ∧
    ((http_signin (fun _ => CurlResult.curlError) parse
        device_uri sock uuid token buf).1 = - EIO ∧
      http_signin (fun _ => CurlResult.curlError) parse
          device_uri sock uuid token buf =
        http_signin (fun _ => CurlResult.curlError) parse2
          device_uri sock uuid token buf) ∧
    (http_mknode (fun _ => CurlResult.response status chunks) device_uri
        sock jreq buf).1 = http2errno status ∧
    (http_rmnode (fun _ => CurlResult.response status chunks) device_uri
        sock uuid token buf).1 = http2errno status ∧
    (http_schema (fun _ => CurlResult.response status chunks) device_uri
        sock uuid token jreq buf).1 = http2errno status ∧
    (http_setdata (fun _ => CurlResult.response status chunks) device_uri
        sock uuid token jreq buf).1 = http2errno status := by
  refine ⟨?_, ?_, ?_, rfl, rfl, rfl, rfl⟩
  · intro hst
    constructor
    · intro hcj
      constructor <;>
        simp [http_signin, http_fetch, fetch_url, hst, hcj]
    · intro out hcj
      constructor <;>
        simp [http_signin, http_fetch, fetch_url, hst, hcj]
  · intro hst
    have hlt : http2errno status < 0 := hst
    refine ⟨?_, ?_, ?_⟩ <;>
      simp [http_signin, http_fetch, fetch_url, hlt]
  · constructor <;>
      simp [http_signin, http_fetch, fetch_url,
        (by decide : (- EIO : Int) < 0)]

/-- Claim C3 witness: a 200 response whose body the codec rejects makes
sign-in fail with `-EINVAL` even though the status mapped to success. -/
theorem proto_ops_codec_use_witness :
    (http_signin (fun _ => CurlResult.response 200 ["bad"]) (fun _ => none)
        "h/devices" 0 "u" "t" json_raw_empty).1 = - EINVAL :=
  ((proto_ops_codec_use (fun _ => none) (fun _ => none) "h/devices" 0 "u" "t"
      "\x7b\x7d" json_raw_empty 200 ["bad"]).1 (by decide)).1 (by rfl) |>.1

/-! ## RawPayload buffer invariants -/

/-- The bytes of a response body delivered as chunks. -/
def chunksContent (chunks : List String) : List Char :=
  (chunks.map String.data).flatten

theorem foldl_write_cb_from (chunks : List String) (content : List Char) :
    chunks.foldl write_cb
        { data := some (content ++ [nulChar]), size := content.length } =
      { data := some ((content ++ chunksContent chunks) ++ [nulChar]),
        size := (content ++ chunksContent chunks).length } := by
  induction chunks generalizing content with
  | nil => simp [chunksContent]
  | cons c cs ih =>
    have hstep : write_cb
        { data := some (content ++ [nulChar]), size := content.length } c =
        { data := some ((content ++ c.data) ++ [nulChar]),
          size := (content ++ c.data).length } := by
      simp only [write_cb, Option.getD_some, List.take_left, List.length_append]
      rfl
    rw [List.foldl_cons, hstep, ih (content ++ c.data)]
    simp [chunksContent, List.append_assoc]

/-- Claim C7: a request on a reused payload handle first clears the
buffer — the result is independent of the previous contents `prev`, so
bodies are never appended across calls — and the refilled buffer is
exactly the chunk content followed by one NUL terminator, with the
recorded `size` equal to the content length (no stale bytes beyond the
terminator; an empty body leaves the NULL buffer of the cleared
state). -/
theorem rawpayload_refill_invariant (sockfd : Int)
    (action json uuid token : Option String) (prev : json_raw_t)
    (req : String) (status : Int) (chunks : List String) :
    (fetch_url (fun _ => CurlResult.response status chunks) sockfd action json
        uuid token (some prev) (some req)).2.1 =
      some { data := if chunks = [] then none
                     else some (chunksContent chunks ++ [nulChar]),
             size := (chunksContent chunks).length } := by
  simp only [fetch_url]
  congr 1
  cases chunks with
  | nil => rfl
  | cons c cs =>
    have h0 : write_cb json_raw_empty c =
        { data := some (c.data ++ [nulChar]), size := c.data.length } := by
      simp only [write_cb, json_raw_empty, Option.getD_none, List.take_nil,
        List.nil_append, Nat.zero_add]
      rfl
    rw [List.foldl_cons, h0, foldl_write_cb_from cs c.data]
    simp [chunksContent]

/-! ## The watch/poll loop -/

/-- The events the GLib main loop can dispatch at a registered watch:
a firing of the 10-second poll timer (carrying whether its fetch
succeeded), a HUP/ERR/NVAL condition on the bound I/O channel, and the
owner removing the timer source returned by registration. -/
inductive WatchEvent where
  | timerTick : Bool → WatchEvent
  | hup : WatchEvent
  | sourceRemove : WatchEvent

/-- Observable state of one registered watch: which of the two GLib
sources are still installed, whether the `to_fetch` handle is still
allocated, how many times it was freed, how many callback invocations
happened, and how many of those happened after the handle was freed. -/
structure WatchState where
  timer_active : Bool
  io_active : Bool
  handle_alive : Bool
  frees : Nat
  cb_invocations : Nat
  cb_after_free : Nat
deriving DecidableEq

/-- `proto_register_watch` of the source: allocate the `to_fetch`
handle, install the 10-second timer running `proto_poll`, and install
the I/O-condition watch running `http_hup_cb`. -/
def proto_register_watch : WatchState :=
  { timer_active := true, io_active := true, handle_alive := true,
    frees := 0, cb_invocations := 0, cb_after_free := 0 }

/-- One main-loop dispatch.  A timer tick runs `proto_poll`, which
dereferences the handle and invokes the callback when its fetch
succeeded, and returns TRUE, keeping the timer installed.  A HUP runs
`http_hup_cb`, which frees the handle and returns FALSE, removing only
the I/O watch.  `sourceRemove` detaches the timer source and nothing
else. -/
def watch_step (s : WatchState) : WatchEvent → WatchState
  | WatchEvent.timerTick fetchOk =>
    if s.timer_active then
      { s with
        cb_invocations := s.cb_invocations + (if fetchOk then 1 else 0),
        cb_after_free :=
          s.cb_after_free + (if fetchOk && !s.handle_alive then 1 else 0) }
    else s
  | WatchEvent.hup =>
    if s.io_active then
      { s with frees := s.frees + 1, handle_alive := false, io_active := false }
    else s
  | WatchEvent.sourceRemove => { s with timer_active := false }

def watch_run (evs : List WatchEvent) : WatchState :=
  evs.foldl watch_step proto_register_watch

/-- Claim C6 (code bug): after the connection-liveness watch observes
HUP and frees the WatchHandle, the poll timer is still installed and
the next successful tick still invokes the callback through the freed
handle (a use-after-free); and the other alleged release path — the
timer owner removing the timer source — frees nothing at all. -/
theorem watch_release_use_after_free :
    (watch_run [WatchEvent.hup, WatchEvent.timerTick true]).frees = 1 ∧
    (watch_run [WatchEvent.hup, WatchEvent.timerTick true]).timer_active = true ∧
    (watch_run [WatchEvent.hup, WatchEvent.timerTick true]).cb_after_free = 1 ∧
    (watch_run [WatchEvent.sourceRemove]).frees = 0 ∧
    (watch_run [WatchEvent.sourceRemove]).handle_alive = true := by
  decide

/-- `proto_poll` of the source: zero a fresh buffer, run `http_fetch`
with the watch's socket and credentials, and on success invoke the
registered callback with the fetched payload and the caller context
(first component: the invocation, if any); always return TRUE so the
timer stays installed (second component). -/
def proto_poll {α : Type} (perform : Request → CurlResult)
    (parse : String → Option Json) (device_uri : String) (proto_sock : Int)
    (uuid token : String) (user_data : α) : Option (json_raw_t × α) × Bool :=
  let r := http_fetch perform parse device_uri proto_sock uuid token
    json_raw_empty
  if r.1 ≠ 0 then (none, true)
  else (some (r.2.1.getD json_raw_empty, user_data), true)

/-- Claim C8: on every poll tick the registered callback is invoked,
with the extracted payload and the caller context, exactly when the
fetch succeeded; on failure no callback happens, and in both cases the
tick returns TRUE so the timer keeps running. -/
theorem proto_poll_spec {α : Type} (perform : Request → CurlResult)
    (parse : String → Option Json) (device_uri : String) (sock : Int)
    (uuid token : String) (user_data : α) :
    (proto_poll perform parse device_uri sock uuid token user_data).2 = true ∧
    ((http_fetch perform parse device_uri sock uuid token json_raw_empty).1 = 0 →
      (proto_poll perform parse device_uri sock uuid token user_data).1 =
        some ((http_fetch perform parse device_uri sock uuid token
          json_raw_empty).2.1.getD json_raw_empty, user_data)) ∧
    ((http_fetch perform parse device_uri sock uuid token json_raw_empty).1 ≠ 0 →
      (proto_poll perform parse device_uri sock uuid token user_data).1 =
        none) := by
  refine ⟨?_, ?_, ?_⟩
  · simp only [proto_poll]
    split <;> rfl
  · intro h
    simp [proto_poll, h]
  · intro h
    simp [proto_poll, h]

/-- Claim C8 witness: a failing fetch (transport error) invokes no
callback and keeps the timer running. -/
theorem proto_poll_spec_witness :
    (proto_poll (fun _ => CurlResult.curlError) (fun _ => none)
        "h/devices" 0 "u" "t" (0 : Nat)).1 = none ∧
    (proto_poll (fun _ => CurlResult.curlError) (fun _ => none)
        "h/devices" 0 "u" "t" (0 : Nat)).2 = true := by
  have h := proto_poll_spec (fun _ => CurlResult.curlError) (fun _ => none)
    "h/devices" 0 "u" "t" (0 : Nat)
  exact ⟨h.2.2 (by decide), h.1⟩

/-! ## Closing the connection -/

/-- The world the close operation could touch: the sockets currently
open on the caller's side. -/
structure ConnState where
  open_sockets : List Int
deriving DecidableEq

/-- `http_close` of the source: its body is empty. -/
def http_close (sock : Int) (st : ConnState) : ConnState := st

/-- Claim C10: the exposed close operation is a no-op — for every
socket handle it modifies no state and closes nothing; the underlying
socket's lifecycle stays with the caller. -/
theorem http_close_noop (sock : Int) (st : ConnState) :
    http_close sock st = st ∧
    (http_close sock st).open_sockets = st.open_sockets :=
  ⟨rfl, rfl⟩

end Meshblu
